import Mathlib

/-!
Verification of the Amazon Product Advertising API client
(`src/clients/amazon.ts`): request-body construction, AWS4 request
signing, and response normalization, embedded shallowly in Lean.

JavaScript numbers are idealized as rationals with explicit non-finite
values (`JsNumber`); the external crypto primitives (SHA-256, HMAC-SHA256
from `node:crypto`) and the JSON parser (`JSON.parse`) are abstracted as
parameters, since they are library collaborators outside the repository;
the string around them is embedded exactly.
-/

/-- Constant `SERVICE` from `amazon.ts`. -/
def SERVICE : String := "ProductAdvertisingAPI"

/-- Constant `TARGET` from `amazon.ts`. -/
def TARGET : String := "com.amazon.paapi5.v1.ProductAdvertisingAPIv1.SearchItems"

/-- Constant `API_PATH` from `amazon.ts`. -/
def API_PATH : String := "/paapi5/searchitems"

/-- A JavaScript number: either a finite value (idealized as a rational)
or one of the non-finite values NaN, +Infinity, -Infinity. -/
inductive JsNumber where
  | finite (q : ℚ)
  | nan
  | posInf
  | negInf
deriving Repr, DecidableEq

/-- `Number.isFinite`. -/
def JsNumber.isFinite : JsNumber → Bool
  | .finite _ => true
  | _ => false

/-- `Math.round` on a finite JavaScript number: round to the nearest
integer, ties toward positive infinity, i.e. `⌊x + 1/2⌋`. -/
def jsRound (q : ℚ) : ℤ := Int.floor (q + 1/2)

/-- `toSubUnits` from `amazon.ts`: `Math.max(0, Math.round(value * 100))`. -/
def toSubUnits (q : ℚ) : ℤ := max 0 (jsRound (q * 100))

/-- JavaScript truthiness on an optional string: `undefined` and the
empty string are falsy.  `optTruthy o` is `some s` exactly when `o`
holds a truthy (non-empty) string `s`. -/
def optTruthy (o : Option String) : Option String :=
  match o with
  | some s => if s = "" then none else some s
  | none => none

/-- `AppConfig` from `config.ts` (the validated environment). -/
structure AppConfig where
  AWS_ACCESS_KEY_ID : String
  AWS_SECRET_ACCESS_KEY : String
  AMAZON_PARTNER_TAG : String
  AMAZON_REGION : String
  AMAZON_HOST : String
deriving Repr, DecidableEq

/-- `SearchProductsInput` from `types.ts`.  Prices are numbers upstream;
the caller-facing validator guarantees they are plain non-negative
numbers, modelled as rationals. -/
structure SearchProductsInput where
  keywords : String
  category : Option String := none
  minPrice : Option ℚ := none
  maxPrice : Option ℚ := none
  sortBy : Option String := none
deriving Repr, DecidableEq

/-- `AmazonSearchItemsRequest` from `amazon.ts`. -/
structure AmazonSearchItemsRequest where
  Keywords : String
  PartnerTag : String
  PartnerType : String
  Resources : List String
  SearchIndex : Option String := none
  SortBy : Option String := none
  MinPrice : Option ℤ := none
  MaxPrice : Option ℤ := none
deriving Repr, DecidableEq

/-- `AmazonClient.buildRequestBody` from `amazon.ts`.  The
`if (input.category)` / `if (input.sortBy)` guards are JavaScript
truthiness tests, hence `optTruthy`; the price guards test
`typeof input.minPrice === 'number'`, i.e. presence. -/
def buildRequestBody (config : AppConfig) (input : SearchProductsInput) :
    AmazonSearchItemsRequest :=
  { Keywords := input.keywords
    PartnerTag := config.AMAZON_PARTNER_TAG
    PartnerType := "Associates"
    Resources := [
      "Images.Primary.Small",
      "Images.Primary.Medium",
      "ItemInfo.Title",
      "ItemInfo.ByLineInfo",
      "Offers.Listings.Price",
      "CustomerReviews.Count",
      "CustomerReviews.StarRating"]
    SearchIndex := optTruthy input.category
    SortBy := optTruthy input.sortBy
    MinPrice := input.minPrice.map toSubUnits
    MaxPrice := input.maxPrice.map toSubUnits }

/-! ## Signing (Signer, spec section 4.2) -/

/-- The cryptographic primitives from `node:crypto`, abstracted: a
SHA-256 hex digest of a string, HMAC-SHA256 keyed by a string or by a
previous raw digest (a byte list), and hex rendering of a raw digest.
Both the source embedding and the spec reference algorithm are stated
over the same primitives. -/
structure CryptoPrimitives where
  sha256hex : String → String
  hmacStr : String → String → List Nat
  hmacBytes : List Nat → String → List Nat
  toHex : List Nat → String

/-- `AmazonClient.deriveSigningKey` from `amazon.ts`: four chained
HMAC-SHA256 operations starting from `"AWS4" + secretKey`. -/
def deriveSigningKey (c : CryptoPrimitives)
    (secretKey dateStamp region : String) : List Nat :=
  let kDate := c.hmacStr ("AWS4" ++ secretKey) dateStamp
  let kRegion := c.hmacBytes kDate region
  let kService := c.hmacBytes kRegion SERVICE
  c.hmacBytes kService "aws4_request"

/-- The trailing-milliseconds rewrite of `createAmzDate`: the regex
`\.\d{3}Z$` replaced by `Z` (one anchored match at most). -/
def stripMillis (s : String) : String :=
  let cs := s.data
  let n := cs.length
  if 5 ≤ n then
    match cs.drop (n - 5) with
    | ['.', d1, d2, d3, 'Z'] =>
      if d1.isDigit && d2.isDigit && d3.isDigit then
        String.mk (cs.take (n - 5) ++ ['Z'])
      else s
    | _ => s
  else s

/-- `AmazonClient.createAmzDate` from `amazon.ts`, as a function of the
ISO-8601 string of the instant (`date.toISOString()`): delete every `:`
and `-`, then strip the milliseconds. -/
def createAmzDate (iso : String) : String :=
  stripMillis (String.mk (iso.data.filter (fun ch => ch != ':' && ch != '-')))

/-- The signed request as returned by `buildSignedRequest`: the endpoint
URL and the header map (fixed keys, so a record). -/
structure SignedRequest where
  endpoint : String
  contentEncoding : String
  contentType : String
  amzDate : String
  amzTarget : String
  authorization : String
  accept : String
deriving Repr, DecidableEq

/-- `AmazonClient.buildSignedRequest` from `amazon.ts`, with the current
instant (`new Date()`) passed in as its ISO string `now`. -/
def buildSignedRequest (c : CryptoPrimitives) (config : AppConfig)
    (body : String) (now : String) : SignedRequest :=
  let host := config.AMAZON_HOST
  let region := config.AMAZON_REGION
  let accessKey := config.AWS_ACCESS_KEY_ID
  let secretKey := config.AWS_SECRET_ACCESS_KEY
  let endpoint := "https://" ++ host ++ API_PATH
  let amzDate := createAmzDate now
  let dateStamp := amzDate.take 8
  let canonicalHeadersList : List (String × String) := [
    ("content-encoding", "amz-1.0"),
    ("content-type", "application/json; charset=UTF-8"),
    ("host", host),
    ("x-amz-date", amzDate),
    ("x-amz-target", TARGET)]
  let canonicalHeaders :=
    String.join (canonicalHeadersList.map (fun kv => kv.1 ++ ":" ++ kv.2 ++ "\n"))
  let signedHeaders := String.intercalate ";" (canonicalHeadersList.map Prod.fst)
  let payloadHash := c.sha256hex body
  let canonicalRequest := String.intercalate "\n"
    ["POST", API_PATH, "", canonicalHeaders, signedHeaders, payloadHash]
  let credentialScope := dateStamp ++ "/" ++ region ++ "/" ++ SERVICE ++ "/aws4_request"
  let stringToSign := String.intercalate "\n"
    ["AWS4-HMAC-SHA256", amzDate, credentialScope, c.sha256hex canonicalRequest]
  let signingKey := deriveSigningKey c secretKey dateStamp region
  let signature := c.toHex (c.hmacBytes signingKey stringToSign)
  let authorizationHeader :=
    "AWS4-HMAC-SHA256 Credential=" ++ accessKey ++ "/" ++ credentialScope ++ ", " ++
    "SignedHeaders=" ++ signedHeaders ++ ", Signature=" ++ signature
  { endpoint := endpoint
    contentEncoding := "amz-1.0"
    contentType := "application/json; charset=UTF-8"
    amzDate := amzDate
    amzTarget := TARGET
    authorization := authorizationHeader
    accept := "application/json" }

/-- Modelled from the spec (section 4.2): the reference AWS4 signing
algorithm, steps 2 through 9, as a function of the request timestamp
string (step 1's output), the credentials, region, service name, host,
path and body.  The canonical header block is the fixed ordered list
content-encoding, content-type, host, date header, target header, each
rendered `name:value\n`; the signed-headers list joins the same names
with `;`; the canonical request is method, path, empty query line,
header block, signed-headers list and body hash joined by newlines; the
key is derived by the four chained HMACs keyed first by
`AWS4` ++ secret; the header is
`AWS4-HMAC-SHA256 Credential=..., SignedHeaders=..., Signature=...`. -/
def specAws4Authorization (c : CryptoPrimitives)
    (accessKey secretKey region serviceName host path timestamp body : String) :
    String :=
  let dateStamp := timestamp.take 8
  let headerPairs : List (String × String) := [
    ("content-encoding", "amz-1.0"),
    ("content-type", "application/json; charset=UTF-8"),
    ("host", host),
    ("x-amz-date", timestamp),
    ("x-amz-target", TARGET)]
  let headerBlock :=
    String.join (headerPairs.map (fun kv => kv.1 ++ ":" ++ kv.2 ++ "\n"))
  let signedHeadersList := String.intercalate ";" (headerPairs.map Prod.fst)
  let contentHash := c.sha256hex body
  let canonicalRequest := String.intercalate "\n"
    ["POST", path, "", headerBlock, signedHeadersList, contentHash]
  let credentialScope :=
    dateStamp ++ "/" ++ region ++ "/" ++ serviceName ++ "/aws4_request"
  let stringToSign := String.intercalate "\n"
    ["AWS4-HMAC-SHA256", timestamp, credentialScope, c.sha256hex canonicalRequest]
  let kDate := c.hmacStr ("AWS4" ++ secretKey) dateStamp
  let kRegion := c.hmacBytes kDate region
  let kService := c.hmacBytes kRegion serviceName
  let signingKey := c.hmacBytes kService "aws4_request"
  let signature := c.toHex (c.hmacBytes signingKey stringToSign)
  "AWS4-HMAC-SHA256 Credential=" ++ accessKey ++ "/" ++ credentialScope ++ ", " ++
    "SignedHeaders=" ++ signedHeadersList ++ ", Signature=" ++ signature

/-! ## Response data model (`AmazonSearchItemsResponse`, `AmazonItem`) -/

/-- A provider field typed `number | string` in `amazon.ts`. -/
inductive RawValue where
  | num (n : JsNumber)
  | str (s : String)
deriving Repr, DecidableEq

/-- `Price` inside an offer listing. -/
structure PriceInfo where
  DisplayAmount : Option String := none
  Amount : Option JsNumber := none
  Currency : Option String := none
deriving Repr, DecidableEq

/-- One entry of `Offers.Listings`. -/
structure OfferListing where
  Price : Option PriceInfo := none
deriving Repr, DecidableEq

/-- `Offers` of an item. -/
structure Offers where
  Listings : Option (List OfferListing) := none
deriving Repr, DecidableEq

/-- `ItemInfo.Title`. -/
structure TitleInfo where
  DisplayValue : Option String := none
deriving Repr, DecidableEq

/-- `ItemInfo` of an item (only the field read by normalization). -/
structure ItemInfo where
  Title : Option TitleInfo := none
deriving Repr, DecidableEq

/-- `CustomerReviews` of an item. -/
structure CustomerReviews where
  StarRating : Option RawValue := none
  Count : Option RawValue := none
  TotalReviewCount : Option RawValue := none
deriving Repr, DecidableEq

/-- One image variant, `{ URL?: string }`. -/
structure ImageVariant where
  URL : Option String := none
deriving Repr, DecidableEq

/-- `Images.Primary`. -/
structure PrimaryImages where
  Small : Option ImageVariant := none
  Medium : Option ImageVariant := none
  Large : Option ImageVariant := none
deriving Repr, DecidableEq

/-- `Images` of an item. -/
structure Images where
  Primary : Option PrimaryImages := none
deriving Repr, DecidableEq

/-- `AmazonItem` from `amazon.ts` (the fields normalization reads). -/
structure AmazonItem where
  ASIN : String
  DetailPageURL : Option String := none
  ItemInfo : Option ItemInfo := none
  Offers : Option Offers := none
  CustomerReviews : Option CustomerReviews := none
  Images : Option Images := none
deriving Repr, DecidableEq

/-- One entry of the provider's `Errors` array. -/
structure AmazonErrorEntry where
  Code : Option String := none
  Message : Option String := none
deriving Repr, DecidableEq

/-- `SearchResult` field of the reply. -/
structure SearchResultField where
  Items : Option (List AmazonItem) := none
deriving Repr, DecidableEq

/-- `AmazonSearchItemsResponse` from `amazon.ts`. -/
structure AmazonSearchItemsResponse where
  SearchResult : Option SearchResultField := none
  Errors : Option (List AmazonErrorEntry) := none
  RequestId : Option String := none
deriving Repr, DecidableEq

/-- `NormalizedPrice` from `types.ts`. -/
structure NormalizedPrice where
  display : String
  amount : Option ℚ := none
  currency : Option String := none
deriving Repr, DecidableEq

/-- `ProductSummary` from `types.ts`. -/
structure ProductSummary where
  asin : String
  title : String
  detailPageUrl : Option String := none
  price : Option NormalizedPrice := none
  rating : Option ℚ := none
  totalReviews : Option ℤ := none
  imageUrl : Option String := none
deriving Repr, DecidableEq

/-- `SearchProductsResult` from `types.ts`. -/
structure SearchProductsResult where
  products : List ProductSummary
  requestId : Option String := none
deriving Repr, DecidableEq

/-! ## Response normalization (`amazon.ts`) -/

/-- `formatErrorMessages` from `amazon.ts`: `undefined` when the list is
absent or empty, otherwise the `"; "`-joined `"<code>: <message>"`
entries with the literal fallbacks for missing fields. -/
def formatErrorMessages (errors : Option (List AmazonErrorEntry)) :
    Option String :=
  match errors with
  | none => none
  | some [] => none
  | some es => some (String.intercalate "; " (es.map (fun e =>
      e.Code.getD "UnknownCode" ++ ": " ++
        e.Message.getD "Unknown error from Amazon Product Advertising API")))

/-- `AmazonClient.parseNumber` from `amazon.ts`, parameterized by the
`Number(string)` builtin `numParse`: a finite number passes through, a
string is coerced and kept when the coercion is finite, everything else
(including a non-finite number) is `undefined`. -/
def parseNumber (numParse : String → JsNumber) : Option RawValue → Option ℚ
  | some (.num (.finite q)) => some q
  | some (.num _) => none
  | some (.str s) =>
    match numParse s with
    | .finite q => some q
    | _ => none
  | none => none

/-- `AmazonClient.parseInteger` from `amazon.ts`: `parseNumber`, then
`Math.round`.  (`Math.round` of a finite number is finite, so the final
`Number.isFinite` guard of the source always passes.) -/
def parseInteger (numParse : String → JsNumber) (v : Option RawValue) :
    Option ℤ :=
  (parseNumber numParse v).map jsRound

/-- `AmazonClient.normalizePrice` from `amazon.ts`.  The
`!price?.DisplayAmount` guard is a JavaScript truthiness test, so an
absent price, an absent display amount and an empty display amount all
yield `undefined`; the amount is copied when it is a finite number, the
currency when truthy. -/
def normalizePrice (price : Option PriceInfo) : Option NormalizedPrice :=
  match price with
  | none => none
  | some p =>
    match p.DisplayAmount with
    | none => none
    | some d =>
      if d = "" then none
      else some
        { display := d
          amount := match p.Amount with
            | some (.finite q) => some q
            | _ => none
          currency := optTruthy p.Currency }

/-- `AmazonClient.normalizeItem` from `amazon.ts`. -/
def normalizeItem (numParse : String → JsNumber) (item : AmazonItem) :
    ProductSummary :=
  let listing := ((item.Offers.bind (·.Listings)).bind List.head?)
  let price := normalizePrice (listing.bind (·.Price))
  let rating := parseNumber numParse (item.CustomerReviews.bind (·.StarRating))
  let reviewCount := parseInteger numParse
    ((item.CustomerReviews.bind (·.TotalReviewCount)).or
      (item.CustomerReviews.bind (·.Count)))
  let imageUrl :=
    (((item.Images.bind (·.Primary)).bind (·.Medium)).bind (·.URL)).or
      ((((item.Images.bind (·.Primary)).bind (·.Small)).bind (·.URL)).or
        (((item.Images.bind (·.Primary)).bind (·.Large)).bind (·.URL)))
  { asin := item.ASIN
    title := (((item.ItemInfo.bind (·.Title)).bind (·.DisplayValue)).getD item.ASIN)
    detailPageUrl := optTruthy item.DetailPageURL
    price := price
    rating := rating
    totalReviews := reviewCount
    imageUrl := optTruthy imageUrl }

/-- `Response.ok` of the Fetch API: status in the range 200 to 299. -/
def responseOk (status : ℕ) : Bool := 200 ≤ status && status ≤ 299

/-- The error-detection and mapping tail of `searchProducts`
(`amazon.ts` after the JSON parse): the non-success status check with
its `formatErrorMessages` fallback message, the provider error
envelope check, then the independent mapping of the items and the
truthiness-guarded `RequestId` copy. -/
def handleParsed (numParse : String → JsNumber) (status : ℕ)
    (payload : AmazonSearchItemsResponse) :
    Except String SearchProductsResult :=
  if !responseOk status then
    .error ((formatErrorMessages payload.Errors).getD
      ("Amazon API responded with status " ++ toString status))
  else if (payload.Errors.getD []).length != 0 then
    .error ((formatErrorMessages payload.Errors).getD "Unknown Amazon API error")
  else
    let items := (payload.SearchResult.bind (·.Items)).getD []
    .ok { products := items.map (normalizeItem numParse)
          requestId := optTruthy payload.RequestId }

/-- The reply-processing portion of `AmazonClient.searchProducts`
(`amazon.ts`), from `const rawPayload = await response.text()` on,
parameterized by the `JSON.parse` builtin `jsonParse` (whose failure
message is the thrown `Error`'s message).  A falsy — empty — body skips
the parse and stands for the empty object. -/
def searchProductsResponse
    (jsonParse : String → Except String AmazonSearchItemsResponse)
    (numParse : String → JsNumber) (status : ℕ) (rawPayload : String) :
    Except String SearchProductsResult :=
  if rawPayload = "" then handleParsed numParse status {}
  else
    match jsonParse rawPayload with
    | .error e =>
      .error ("Unable to parse Amazon API response as JSON: " ++ e)
    | .ok payload => handleParsed numParse status payload

/-! ## A concrete model of the `Number(string)` builtin -/

/-- Value of a digit run, most significant first. -/
def digitsToNat (cs : List Char) : ℕ :=
  cs.foldl (fun a c => 10 * a + (c.toNat - 48)) 0

/-- An unsigned decimal literal: `digits`, `digits.digits`, `digits.`
or `.digits`. -/
def parseUnsignedDecimal (cs : List Char) : Option ℚ :=
  let intPart := cs.takeWhile Char.isDigit
  let rest := cs.dropWhile Char.isDigit
  match rest with
  | [] => if intPart.isEmpty then none else some (digitsToNat intPart)
  | '.' :: frac =>
    if frac.all Char.isDigit && !(intPart.isEmpty && frac.isEmpty) then
      some ((digitsToNat intPart : ℚ) +
        (digitsToNat frac : ℚ) / ((10 : ℚ) ^ frac.length))
    else none
  | _ => none

/-- A signed decimal literal. -/
def parseSignedDecimal : List Char → Option ℚ
  | '+' :: rest => parseUnsignedDecimal rest
  | '-' :: rest => (parseUnsignedDecimal rest).map Neg.neg
  | cs => parseUnsignedDecimal cs

/-- Leading and trailing whitespace removal, as `Number(string)`
performs before conversion. -/
def jsTrim (s : String) : String :=
  String.mk
    (((s.data.dropWhile Char.isWhitespace).reverse.dropWhile
        Char.isWhitespace).reverse)

/-- The `Number(string)` builtin of JavaScript, modelled on the plain
decimal fragment (trimmed optional sign, digits, optional fraction): a
blank string is `0`, an unparsable string is NaN.  (Exponent, hex,
binary and `Infinity` literals are outside the fragment the provider
payloads use and map to NaN here.) -/
def jsNumber (s : String) : JsNumber :=
  let t := jsTrim s
  if t = "" then .finite 0
  else
    match parseSignedDecimal t.data with
    | some q => .finite q
    | none => .nan

/-! ## Concrete instances used to evaluate the claims -/

/-- A concrete instantiation of the abstract crypto primitives, used
only to evaluate the signing assembly on concrete inputs. -/
def demoCrypto : CryptoPrimitives :=
  { sha256hex := fun s => toString s.length
    hmacStr := fun k m => [k.length % 256, m.length % 256]
    hmacBytes := fun k m => [k.foldl (· + ·) 0 % 256, m.length % 256]
    toHex := fun bs => String.intercalate "-" (bs.map toString) }

/-- A concrete configuration, as in `amazon.test.ts`. -/
def demoConfig : AppConfig :=
  { AWS_ACCESS_KEY_ID := "AKIATESTKEY12345"
    AWS_SECRET_ACCESS_KEY := "test-secret-key"
    AMAZON_PARTNER_TAG := "test-partner"
    AMAZON_REGION := "us-east-1"
    AMAZON_HOST := "webservices.amazon.com" }

/-- A `JSON.parse` behaviour that rejects its input, as `JSON.parse`
does on the empty string. -/
def rejectingParse : String → Except String AmazonSearchItemsResponse :=
  fun _ => .error "Unexpected end of JSON input"

/-- A `JSON.parse` behaviour returning a fixed parsed payload. -/
def fixedParse (p : AmazonSearchItemsResponse) :
    String → Except String AmazonSearchItemsResponse :=
  fun _ => .ok p

/-- The provider-error reply of `amazon.test.ts`: one `AccessDenied`
entry. -/
def accessDeniedPayload : AmazonSearchItemsResponse :=
  { Errors := some [
      { Code := some "AccessDenied"
        Message := some
          "The security token included in the request is invalid" }] }

/-- The price listing of the spec's end-to-end scenario. -/
def priceW : PriceInfo :=
  { DisplayAmount := some "$199.99"
    Amount := some (.finite (19999/100 : ℚ))
    Currency := some "USD" }

/-- The two-item success payload used to witness C8, with items of
dissimilar, partly missing shape. -/
def twoItemsPayload : AmazonSearchItemsResponse :=
  { SearchResult := some
      { Items := some [
          { ASIN := "A1" },
          { ASIN := "A2"
            CustomerReviews := some { StarRating := some (.num .nan) } }] }
    RequestId := some "REQUEST-123" }

/-- An item whose provider-supplied star rating is above 5 and whose
review count is negative. -/
def outOfRangeItem : AmazonItem :=
  { ASIN := "B0BAD"
    CustomerReviews := some
      { StarRating := some (.num (.finite 6))
        TotalReviewCount := some (.num (.finite (-4))) } }

/-- The in-range item used to witness the amended C9. -/
def goodReviewsItem : AmazonItem :=
  { ASIN := "B0GOOD"
    CustomerReviews := some
      { StarRating := some (.num (.finite (23/5)))
        TotalReviewCount := some (.num (.finite 321)) } }

/-- An item carrying a star rating but no review-count field at all,
used to witness the amended C9's rating clause on its own. -/
def ratingOnlyItem : AmazonItem :=
  { ASIN := "B0RATE"
    CustomerReviews := some { StarRating := some (.num (.finite (23/5))) } }

/-! ## Claims about the signing step -/

/-- C1: for every request body, host, region, access key, secret key and
timestamp, the Authorization header produced by `buildSignedRequest`
equals the reference AWS4 signing algorithm of spec section 4.2 — the
canonical request over the fixed ordered header list and the body hash,
the signing key from the four chained HMACs seeded with
`AWS4` ++ secret key over date stamp, region, service name and
`aws4_request`, and the
`AWS4-HMAC-SHA256 Credential=..., SignedHeaders=..., Signature=...`
header — instantiated at the service name `ProductAdvertisingAPI` and
the fixed search path. -/
theorem buildSignedRequest_matches_spec (c : CryptoPrimitives)
    (config : AppConfig) (body now : String) :
    (buildSignedRequest c config body now).authorization =
      specAws4Authorization c config.AWS_ACCESS_KEY_ID
        config.AWS_SECRET_ACCESS_KEY config.AMAZON_REGION SERVICE
        config.AMAZON_HOST API_PATH (createAmzDate now) body := by
  rfl

/-- C2: two runs of the signing step with the same access key, secret
key, region and host, the same body, and the same timestamp produce
bit-for-bit identical Authorization and date header values — the output
depends on nothing else (in particular on no randomness or nonce): the
two configurations may differ arbitrarily in their remaining field. -/
theorem buildSignedRequest_deterministic (c : CryptoPrimitives)
    (cfg1 cfg2 : AppConfig) (body now : String)
    (hAccess : cfg1.AWS_ACCESS_KEY_ID = cfg2.AWS_ACCESS_KEY_ID)
    (hSecret : cfg1.AWS_SECRET_ACCESS_KEY = cfg2.AWS_SECRET_ACCESS_KEY)
    (hRegion : cfg1.AMAZON_REGION = cfg2.AMAZON_REGION)
    (hHost : cfg1.AMAZON_HOST = cfg2.AMAZON_HOST) :
    (buildSignedRequest c cfg1 body now).authorization =
      (buildSignedRequest c cfg2 body now).authorization ∧
    (buildSignedRequest c cfg1 body now).amzDate =
      (buildSignedRequest c cfg2 body now).amzDate := by
  constructor <;>
    simp only [buildSignedRequest, deriveSigningKey, hAccess, hSecret,
      hRegion, hHost]

/-- Witness for C2 at concrete inputs: the two configurations agree on
the four signing inputs but differ in the partner tag. -/
theorem buildSignedRequest_deterministic_witness :
    (buildSignedRequest demoCrypto demoConfig "body-a"
        "2024-01-02T03:04:05.000Z").authorization =
      (buildSignedRequest demoCrypto
        { demoConfig with AMAZON_PARTNER_TAG := "other-partner" } "body-a"
        "2024-01-02T03:04:05.000Z").authorization ∧
    (buildSignedRequest demoCrypto demoConfig "body-a"
        "2024-01-02T03:04:05.000Z").amzDate =
      (buildSignedRequest demoCrypto
        { demoConfig with AMAZON_PARTNER_TAG := "other-partner" } "body-a"
        "2024-01-02T03:04:05.000Z").amzDate :=
  buildSignedRequest_deterministic demoCrypto demoConfig
    { demoConfig with AMAZON_PARTNER_TAG := "other-partner" }
    "body-a" "2024-01-02T03:04:05.000Z" rfl rfl rfl rfl

/-! ## Claims about the request body -/

/-- C3: the price-to-minor-units conversion applied to `minPrice` and
`maxPrice` computes `max 0 (round (amount * 100))` with JavaScript's
`Math.round` (ties toward positive infinity); `toSubUnits 19.999 = 2000`,
`toSubUnits (-5) = 0`, `toSubUnits 0 = 0`, and the result is always a
non-negative integer. -/
theorem toSubUnits_minor_units (config : AppConfig)
    (input : SearchProductsInput) (q r : ℚ)
    (hmin : input.minPrice = some q) (hmax : input.maxPrice = some r) :
    (buildRequestBody config input).MinPrice = some (max 0 (jsRound (q * 100))) ∧
    (buildRequestBody config input).MaxPrice = some (max 0 (jsRound (r * 100))) ∧
    toSubUnits (19.999 : ℚ) = 2000 ∧
    toSubUnits (-5 : ℚ) = 0 ∧
    toSubUnits 0 = 0 ∧
    (∀ x : ℚ, 0 ≤ toSubUnits x) := by
  refine ⟨?_, ?_, ?_, ?_, ?_, fun x => le_max_left 0 _⟩
  · simp [buildRequestBody, hmin, toSubUnits]
  · simp [buildRequestBody, hmax, toSubUnits]
  · norm_num [toSubUnits, jsRound]
  · norm_num [toSubUnits, jsRound]
  · norm_num [toSubUnits, jsRound]

/-- Witness for C3 at a concrete input, the prices of the end-to-end
scenario of the spec: `12.34` becomes minor units `1234` and `199.99`
becomes `19999`. -/
theorem toSubUnits_minor_units_witness :
    (buildRequestBody demoConfig
        { keywords := "headphones", minPrice := some (12.34 : ℚ),
          maxPrice := some (199.99 : ℚ) }).MinPrice = some 1234 ∧
    (buildRequestBody demoConfig
        { keywords := "headphones", minPrice := some (12.34 : ℚ),
          maxPrice := some (199.99 : ℚ) }).MaxPrice = some 19999 := by
  obtain ⟨h1, h2, -⟩ := toSubUnits_minor_units demoConfig
    { keywords := "headphones", minPrice := some (12.34 : ℚ),
      maxPrice := some (199.99 : ℚ) } (12.34 : ℚ) (199.99 : ℚ) rfl rfl
  refine ⟨h1.trans ?_, h2.trans ?_⟩ <;> norm_num [jsRound]

/-! ## Claims about response parsing and error handling -/

/-- Counterexample to C4 as stated: the empty reply body is not valid
JSON (its parse fails), yet `searchProducts` does not raise a parse
error — the guard `rawPayload ? JSON.parse(rawPayload) : {}` never
parses a falsy body, and a success status then yields the empty
result. -/
theorem parse_failure_empty_body_counterexample :
    rejectingParse "" = .error "Unexpected end of JSON input" ∧
    searchProductsResponse rejectingParse jsNumber 200 "" =
      .ok { products := [], requestId := none } := by
  exact ⟨rfl, rfl⟩

/-- C4 amended: for every NON-EMPTY raw reply text whose JSON parse
fails with message `e`, `searchProducts` fails with exactly
`Unable to parse Amazon API response as JSON: e`; when the parse
succeeds the result is the post-parse handling of the payload (no parse
error).  The empty body is never parsed. -/
theorem parse_failure_malformed_response
    (jsonParse : String → Except String AmazonSearchItemsResponse)
    (numParse : String → JsNumber) (status : ℕ) (raw : String)
    (hraw : raw ≠ "") :
    (∀ e, jsonParse raw = .error e →
      searchProductsResponse jsonParse numParse status raw =
        .error ("Unable to parse Amazon API response as JSON: " ++ e)) ∧
    (∀ payload, jsonParse raw = .ok payload →
      searchProductsResponse jsonParse numParse status raw =
        handleParsed numParse status payload) := by
  constructor
  · intro e he
    simp [searchProductsResponse, hraw, he]
  · intro payload hp
    simp [searchProductsResponse, hraw, hp]

/-- Witness for the amended C4 at the spec's concrete input `not-json`
with a parser that rejects it. -/
theorem parse_failure_malformed_response_witness :
    searchProductsResponse rejectingParse jsNumber 200 "not-json" =
      .error
        "Unable to parse Amazon API response as JSON: Unexpected end of JSON input" :=
  (parse_failure_malformed_response rejectingParse jsNumber 200 "not-json"
      (by decide)).1 "Unexpected end of JSON input" rfl

/-- C5: after a successful JSON parse, the call fails if and only if
the reply's error list is non-empty or the HTTP status is non-success;
a non-empty error list gives (regardless of status) the `"; "`-joined
`<code>: <message>` lines with `UnknownCode` and the generic message
substituted for missing fields, and a non-success status with no error
envelope reports the bare status code.  The first conjunct links the
post-parse handling to `searchProducts` itself. -/
theorem provider_rejected_iff
    (jsonParse : String → Except String AmazonSearchItemsResponse)
    (numParse : String → JsNumber) (status : ℕ) (raw : String)
    (payload : AmazonSearchItemsResponse)
    (hraw : raw ≠ "") (hparse : jsonParse raw = .ok payload) :
    searchProductsResponse jsonParse numParse status raw =
      handleParsed numParse status payload ∧
    ((handleParsed numParse status payload).isOk =
      (responseOk status && (payload.Errors.getD []).isEmpty)) ∧
    (∀ es, payload.Errors = some es → es ≠ [] →
      handleParsed numParse status payload =
        .error (String.intercalate "; " (es.map (fun e =>
          e.Code.getD "UnknownCode" ++ ": " ++
            e.Message.getD
              "Unknown error from Amazon Product Advertising API")))) ∧
    ((payload.Errors = none ∨ payload.Errors = some []) →
      responseOk status = false →
      handleParsed numParse status payload =
        .error ("Amazon API responded with status " ++ toString status)) := by
  refine ⟨by simp [searchProductsResponse, hraw, hparse], ?_, ?_, ?_⟩
  · rcases hE : payload.Errors with - | es
    · rcases hok : responseOk status with - | -
      · simp [handleParsed, hok, hE, formatErrorMessages, Except.isOk,
          Except.toBool]
      · simp [handleParsed, hok, hE, Except.isOk, Except.toBool]
    · rcases es with - | ⟨e0, es'⟩
      · rcases hok : responseOk status with - | -
        · simp [handleParsed, hok, hE, formatErrorMessages, Except.isOk,
            Except.toBool]
        · simp [handleParsed, hok, hE, Except.isOk, Except.toBool]
      · rcases hok : responseOk status with - | -
        · simp [handleParsed, hok, hE, formatErrorMessages, Except.isOk,
            Except.toBool]
        · simp [handleParsed, hok, hE, formatErrorMessages, Except.isOk,
            Except.toBool, List.isEmpty]
  · intro es hE hne
    rcases es with - | ⟨e0, es'⟩
    · exact absurd rfl hne
    · rcases hok : responseOk status with - | -
      · simp [handleParsed, hok, hE, formatErrorMessages]
      · simp [handleParsed, hok, hE, formatErrorMessages,
          List.length_cons]
  · intro hE hok
    rcases hE with hE | hE <;>
      simp [handleParsed, hok, hE, formatErrorMessages]

/-- Witness for C5 at the spec's concrete scenario: `Errors` holding one
`AccessDenied` entry under HTTP 403 yields exactly
`AccessDenied: <message>`, with no status wording. -/
theorem provider_rejected_iff_witness :
    searchProductsResponse (fixedParse accessDeniedPayload) jsNumber 403
      "raw-provider-reply" =
      .error "AccessDenied: The security token included in the request is invalid" := by
  obtain ⟨h1, -, h3, -⟩ := provider_rejected_iff
    (fixedParse accessDeniedPayload) jsNumber 403 "raw-provider-reply"
    accessDeniedPayload (by decide) rfl
  exact h1.trans (h3 _ rfl (by decide))

/-! ## Claims about item normalization -/

/-- A truthiness-filtered optional string only ever returns what was
already present. -/
theorem optTruthy_eq_some {o : Option String} {s : String}
    (h : optTruthy o = some s) : o = some s := by
  rcases o with - | t
  · simp [optTruthy] at h
  · by_cases ht : t = "" <;> simp [optTruthy, ht] at h <;> simp [h]

/-- C6: price normalization reads only the first offer listing; an
absent listing, an absent price, or an absent display-amount string
yields no price field at all; when a price is produced, its display
string is the listing's, its numeric amount appears only when the
listing holds that finite amount, and its currency only when the
listing holds that currency. -/
theorem normalize_price_first_listing (numParse : String → JsNumber)
    (item : AmazonItem) :
    (normalizeItem numParse item).price =
      normalizePrice
        (((item.Offers.bind (·.Listings)).bind List.head?).bind (·.Price)) ∧
    normalizePrice none = none ∧
    (∀ pr : PriceInfo, pr.DisplayAmount = none →
      normalizePrice (some pr) = none) ∧
    (∀ pr n, normalizePrice (some pr) = some n →
      pr.DisplayAmount = some n.display ∧
      (∀ q, n.amount = some q → pr.Amount = some (.finite q)) ∧
      (∀ cur, n.currency = some cur → pr.Currency = some cur)) := by
  refine ⟨rfl, rfl, ?_, ?_⟩
  · intro pr hd
    simp [normalizePrice, hd]
  · intro pr n h
    rcases hd : pr.DisplayAmount with - | d
    · simp [normalizePrice, hd] at h
    · by_cases hde : d = ""
      · simp [normalizePrice, hd, hde] at h
      · simp only [normalizePrice, hd, hde, if_false, Option.some.injEq] at h
        subst h
        refine ⟨by simpa using hd, ?_, fun cur hc => optTruthy_eq_some hc⟩
        intro q hq
        rcases ha : pr.Amount with - | a
        · simp [ha] at hq
        · cases a <;> simp [ha] at hq <;> simp [hq]

/-- Witness for C6 at concrete inputs: an item with no offer listing has
no price field, and the populated listing's amount is recovered from its
normalization. -/
theorem normalize_price_first_listing_witness :
    (normalizeItem jsNumber { ASIN := "B0TEST123" }).price = none ∧
    priceW.Amount = some (.finite (19999/100 : ℚ)) := by
  obtain ⟨h1, h2, -, h4⟩ :=
    normalize_price_first_listing jsNumber { ASIN := "B0TEST123" }
  obtain ⟨-, hamt, -⟩ := h4 priceW
    { display := "$199.99", amount := some (19999/100 : ℚ),
      currency := some "USD" } rfl
  exact ⟨h1.trans h2, hamt (19999/100 : ℚ) rfl⟩

/-- C7: rating and review count accept numeric or numeric-string
provider values coerced by the numeric parse, discarding non-finite and
non-numeric values; the review count is additionally rounded to an
integer; the total-review-count field is preferred over the count field
(`.or`); and for the concrete strings of the spec, `"4.6"` parses to the
rating `4.6` and `"321"` to the review count `321` — demonstrated on an
item that also carries a competing `Count` field. -/
theorem rating_reviews_coercion (numParse : String → JsNumber)
    (item : AmazonItem) :
    (normalizeItem numParse item).rating =
      parseNumber numParse (item.CustomerReviews.bind (·.StarRating)) ∧
    (normalizeItem numParse item).totalReviews =
      parseInteger numParse
        ((item.CustomerReviews.bind (·.TotalReviewCount)).or
          (item.CustomerReviews.bind (·.Count))) ∧
    (∀ q, parseNumber numParse (some (.num (.finite q))) = some q) ∧
    parseNumber numParse (some (.num .nan)) = none ∧
    parseNumber numParse (some (.num .posInf)) = none ∧
    parseNumber numParse (some (.num .negInf)) = none ∧
    (∀ s q, numParse s = .finite q →
      parseNumber numParse (some (.str s)) = some q) ∧
    (∀ s, numParse s = .nan → parseNumber numParse (some (.str s)) = none) ∧
    (∀ v, parseInteger numParse v = (parseNumber numParse v).map jsRound) ∧
    (normalizeItem jsNumber
        { ASIN := "B0TEST123"
          CustomerReviews := some
            { StarRating := some (.str "4.6")
              Count := some (.str "999")
              TotalReviewCount := some (.str "321") } }).rating =
      some (4.6 : ℚ) ∧
    (normalizeItem jsNumber
        { ASIN := "B0TEST123"
          CustomerReviews := some
            { StarRating := some (.str "4.6")
              Count := some (.str "999")
              TotalReviewCount := some (.str "321") } }).totalReviews =
      some 321 := by
  refine ⟨rfl, rfl, fun q => rfl, rfl, rfl, rfl, ?_, ?_, fun v => rfl, ?_, ?_⟩
  · intro s q h
    simp [parseNumber, h]
  · intro s h
    simp [parseNumber, h]
  · rw [show (normalizeItem jsNumber
        { ASIN := "B0TEST123"
          CustomerReviews := some
            { StarRating := some (.str "4.6")
              Count := some (.str "999")
              TotalReviewCount := some (.str "321") } }).rating =
      some ((digitsToNat ['4'] : ℚ) +
        (digitsToNat ['6'] : ℚ) / ((10 : ℚ) ^ (1 : ℕ))) from rfl,
      show digitsToNat ['4'] = 4 from rfl, show digitsToNat ['6'] = 6 from rfl]
    norm_num
  · rw [show (normalizeItem jsNumber
        { ASIN := "B0TEST123"
          CustomerReviews := some
            { StarRating := some (.str "4.6")
              Count := some (.str "999")
              TotalReviewCount := some (.str "321") } }).totalReviews =
      some (jsRound (digitsToNat ['3', '2', '1'] : ℚ)) from rfl,
      show digitsToNat ['3', '2', '1'] = 321 from rfl]
    norm_num [jsRound]

/-- Witness for C7: the string coercion clause applied at the concrete
provider string `"4.6"`. -/
theorem rating_reviews_coercion_witness :
    parseNumber jsNumber (some (.str "4.6")) = some (4.6 : ℚ) := by
  apply (rating_reviews_coercion jsNumber
    { ASIN := "B0TEST123" }).2.2.2.2.2.2.1
  rw [show jsNumber "4.6" =
      .finite ((digitsToNat ['4'] : ℚ) +
        (digitsToNat ['6'] : ℚ) / ((10 : ℚ) ^ (1 : ℕ))) from rfl,
    show digitsToNat ['4'] = 4 from rfl, show digitsToNat ['6'] = 6 from rfl]
  norm_num

/-- C8: on a successful reply (success status, no error envelope) the
result is one `ProductSummary` per item, in provider reply order — the
products list is exactly the independent map of `normalizeItem` over
the items, its length equals the item count, and its `i`-th entry is
the normalization of the `i`-th item; the batch never aborts, whatever
the shape of the items. -/
theorem batch_mapping
    (jsonParse : String → Except String AmazonSearchItemsResponse)
    (numParse : String → JsNumber) (status : ℕ) (raw : String)
    (payload : AmazonSearchItemsResponse)
    (hraw : raw ≠ "") (hparse : jsonParse raw = .ok payload)
    (hok : responseOk status = true)
    (herr : payload.Errors = none ∨ payload.Errors = some []) :
    searchProductsResponse jsonParse numParse status raw =
      .ok { products :=
              ((payload.SearchResult.bind (·.Items)).getD []).map
                (normalizeItem numParse)
            requestId := optTruthy payload.RequestId } ∧
    (((payload.SearchResult.bind (·.Items)).getD []).map
        (normalizeItem numParse)).length =
      ((payload.SearchResult.bind (·.Items)).getD []).length ∧
    (∀ i (h : i < ((payload.SearchResult.bind (·.Items)).getD []).length),
      (((payload.SearchResult.bind (·.Items)).getD []).map
          (normalizeItem numParse)).get ⟨i, by simpa using h⟩ =
        normalizeItem numParse
          (((payload.SearchResult.bind (·.Items)).getD []).get ⟨i, h⟩)) := by
  refine ⟨?_, by simp, ?_⟩
  · rcases herr with h | h <;>
      simp [searchProductsResponse, hraw, hparse, handleParsed, hok, h]
  · intro i h
    simp [List.getElem_map]

/-- Witness for C8 at the concrete two-item payload under HTTP 200. -/
theorem batch_mapping_witness :
    searchProductsResponse (fixedParse twoItemsPayload) jsNumber 200
      "raw-provider-reply" =
      .ok { products := [
              normalizeItem jsNumber { ASIN := "A1" },
              normalizeItem jsNumber
                { ASIN := "A2"
                  CustomerReviews := some
                    { StarRating := some (.num .nan) } }]
            requestId := some "REQUEST-123" } := by
  obtain ⟨h1, -, -⟩ := batch_mapping (fixedParse twoItemsPayload) jsNumber
    200 "raw-provider-reply" twoItemsPayload (by decide) rfl rfl
    (Or.inl rfl)
  exact h1

/-- Counterexample to C9 as stated: normalization does not clamp, so an
item with provider star rating `6` and review count `-4` yields a
`ProductSummary` whose rating is outside `[0, 5]` and whose
`totalReviews` is negative. -/
theorem rating_range_counterexample :
    (normalizeItem jsNumber outOfRangeItem).rating = some (6 : ℚ) ∧
    ¬((6 : ℚ) ≤ 5) ∧
    (normalizeItem jsNumber outOfRangeItem).totalReviews = some (-4 : ℤ) ∧
    ¬(0 ≤ (-4 : ℤ)) := by
  refine ⟨rfl, by norm_num, ?_, by norm_num⟩
  rw [show (normalizeItem jsNumber outOfRangeItem).totalReviews =
    some (jsRound (-4 : ℚ)) from rfl]
  norm_num [jsRound]

/-- C9 amended: a present rating is exactly the parsed provider star
rating and a present `totalReviews` is exactly the rounded parsed
provider count — normalization passes values through without clamping,
so the `[0, 5]` and non-negativity bounds hold exactly when the
provider-supplied values satisfy them; in particular a non-negative
parsed count yields a non-negative `totalReviews`. -/
theorem rating_range_amended (numParse : String → JsNumber)
    (item : AmazonItem) :
    (∀ q, (normalizeItem numParse item).rating = some q →
      parseNumber numParse (item.CustomerReviews.bind (·.StarRating)) =
        some q) ∧
    (∀ n, (normalizeItem numParse item).totalReviews = some n →
      ∃ q', parseNumber numParse
          ((item.CustomerReviews.bind (·.TotalReviewCount)).or
            (item.CustomerReviews.bind (·.Count))) = some q' ∧
        n = jsRound q' ∧ (0 ≤ q' → 0 ≤ n)) := by
  refine ⟨fun q hq => hq, fun n hn => ?_⟩
  have hn' : (parseNumber numParse
      ((item.CustomerReviews.bind (·.TotalReviewCount)).or
        (item.CustomerReviews.bind (·.Count)))).map jsRound = some n := hn
  rcases hp : parseNumber numParse
      ((item.CustomerReviews.bind (·.TotalReviewCount)).or
        (item.CustomerReviews.bind (·.Count))) with - | q'
  · rw [hp] at hn'
    simp at hn'
  · rw [hp] at hn'
    simp only [Option.map_some', Option.some.injEq] at hn'
    refine ⟨q', rfl, hn'.symm, fun h0 => ?_⟩
    rw [← hn']
    unfold jsRound
    exact Int.le_floor.mpr (by push_cast; linarith)

/-- Witness for the amended C9: the rating clause at an item carrying
only a star rating (no review-count field), and the review-count clause
at an in-range item carrying both fields. -/
theorem rating_range_amended_witness :
    parseNumber jsNumber
      (ratingOnlyItem.CustomerReviews.bind (·.StarRating)) =
        some (23/5 : ℚ) ∧
    (∃ q', parseNumber jsNumber
        ((goodReviewsItem.CustomerReviews.bind (·.TotalReviewCount)).or
          (goodReviewsItem.CustomerReviews.bind (·.Count))) = some q' ∧
      (321 : ℤ) = jsRound q' ∧ (0 ≤ q' → 0 ≤ (321 : ℤ))) := by
  refine ⟨(rating_range_amended jsNumber ratingOnlyItem).1 (23/5 : ℚ) rfl, ?_⟩
  apply (rating_range_amended jsNumber goodReviewsItem).2 321
  rw [show (normalizeItem jsNumber goodReviewsItem).totalReviews =
    some (jsRound (321 : ℚ)) from rfl]
  norm_num [jsRound]

/-- C10: an empty reply body under a success status is not a parse
error: for every JSON parser behaviour, `searchProducts` returns the
empty result with no request id. -/
theorem empty_body_success
    (jsonParse : String → Except String AmazonSearchItemsResponse)
    (numParse : String → JsNumber) (status : ℕ)
    (hok : responseOk status = true) :
    searchProductsResponse jsonParse numParse status "" =
      .ok { products := [], requestId := none } := by
  simp [searchProductsResponse, handleParsed, hok, formatErrorMessages,
    optTruthy]

/-- Witness for C10 at HTTP 200, under a parser that would reject every
input — showing the parse is never consulted. -/
theorem empty_body_success_witness :
    searchProductsResponse rejectingParse jsNumber 200 "" =
      .ok { products := [], requestId := none } :=
  empty_body_success rejectingParse jsNumber 200 rfl
